import Mathlib

/-!
Verification of the AF Trade Offer Calculator core (algorithms.py and the
algorithmic parts of app.py) against its natural-language specification.

Numeric modelling conventions:
* Python floats are modelled as exact rationals (`ℚ`).
* `math.floor` is `Int.floor`; Python `int()` truncates toward zero (`pyInt`);
  Python `round(x, n)` rounds half to even at the n-th decimal (`roundHE`).
* Gift dictionaries are modelled as a record with one field per key that the
  code ever reads; a key absent from a concrete Python dict is read through
  `.get(key, 0)`, which corresponds to the field holding `0`.
* The streamlit session state consumed by `recalculate_gifts` (the four gift
  sliders, the selected offer budget, the order value and the customer type)
  is passed explicitly; the early returns for missing session keys or a
  missing selected offer are outside the modelled core path.
-/

/-- models.CustomerType: RETAILER = 1, TOBACCO_SHOP = 2. -/
inductive CustomerType where
  | RETAILER
  | TOBACCO_SHOP
deriving DecidableEq

/-- The four gift-type keys used by app.recalculate_gifts
("Hookah", "Pack FOC", "AF Points", "Cash Back %"). -/
inductive GiftType where
  | hookah
  | packFOC
  | afPoints
  | cashBack
deriving DecidableEq

/-- The offer tiers of app.py. -/
inductive Tier where
  | Silver
  | Gold
  | Diamond
  | Platinum
deriving DecidableEq

/-- order_data: the "quantities" dict restricted to the three keys the code
reads ("50g", "250g", "1kg"), plus "total_value". -/
structure OrderData where
  q50 : ℕ
  q250 : ℕ
  q1kg : ℕ
  total_value : ℚ
deriving DecidableEq

/-- A gift dictionary / the four gift sliders: integer unit counts for
Pack FOC, Hookah and AF Points, a rational percentage for Cash Back. -/
structure GiftDict where
  packFOC : ℤ
  hookah : ℤ
  afPoints : ℤ
  cashBack : ℚ
deriving DecidableEq

/-- Python int() applied to a rational: truncation toward zero. -/
def pyInt (q : ℚ) : ℤ := if 0 ≤ q then ⌊q⌋ else ⌈q⌉

/-- Python round to the nearest integer: half goes to the even neighbour. -/
def roundHE (q : ℚ) : ℤ :=
  if q - ⌊q⌋ < 1/2 then ⌊q⌋
  else if 1/2 < q - ⌊q⌋ then ⌊q⌋ + 1
  else if ⌊q⌋ % 2 = 0 then ⌊q⌋ else ⌊q⌋ + 1

/-- Python round(x, 1). -/
def round1 (x : ℚ) : ℚ := (roundHE (x * 10) : ℚ) / 10

/-- Python round(x, 2). -/
def round2 (x : ℚ) : ℚ := (roundHE (x * 100) : ℚ) / 100

/-! ## algorithms.py -/

/-- Eligibility test shared by recommend_gift and optimize_budget:
50g count ≥ 10 or 250g count ≥ 3 or 1kg count ≥ 2. -/
def is_gift_eligible (od : OrderData) : Bool :=
  decide (10 ≤ od.q50) || decide (3 ≤ od.q250) || decide (2 ≤ od.q1kg)

/-- Weighted score of recommend_gift step 1: 50g×1 + 250g×5 + 1kg×20. -/
def weight_total (od : OrderData) : ℕ :=
  od.q50 * 1 + od.q250 * 5 + od.q1kg * 20

/-- Hookah branch of recommend_gift: returns the hookah count and the budget
left after subtracting the hookah spend. -/
def hookahAlloc (ct : CustomerType) (w : ℕ) (b : ℚ) : ℤ × ℚ :=
  if ct = CustomerType.TOBACCO_SHOP ∧ 400 ≤ b then
    if 100 < w ∧ 800 < b then
      let n := min 2 ⌊b / 400⌋
      (n, b - (n : ℚ) * 400)
    else if 50 < w then (1, b - 400)
    else (0, b)
  else (0, b)

/-- algorithms.recommend_gift. -/
def recommend_gift (od : OrderData) (ct : CustomerType) (budget : ℚ) : GiftDict :=
  if is_gift_eligible od then
    if 0 < weight_total od then
      let hb := hookahAlloc ct (weight_total od) budget
      { packFOC := ⌊7/10 * hb.2 / 38⌋
        hookah := hb.1
        afPoints := ⌊3/10 * hb.2⌋
        cashBack := 0 }
    else ⟨0, 0, 0, 0⟩
  else ⟨0, 0, 0, 0⟩

/-- algorithms.calculate_budget_from_roi. -/
def calculate_budget_from_roi (od : OrderData) (target_roi : ℚ) : ℚ :=
  target_roi / 100 * od.total_value

/-- Greedy top-up phase of optimize_budget (after the initial recommendation):
spend leftover budget on Pack FOC, then on AF Points. -/
def topUp (gifts : GiftDict) (budget : ℚ) : GiftDict :=
  let usage : ℚ := (gifts.packFOC : ℚ) * 38 + (gifts.hookah : ℚ) * 400 + (gifts.afPoints : ℚ) * 1
  let rem := budget - usage
  let addP : ℤ := if 38 < rem then ⌊rem / 38⌋ else 0
  let rem2 := rem - (addP : ℚ) * 38
  let addA : ℤ := if 1 < rem2 then ⌊rem2⌋ else 0
  { packFOC := gifts.packFOC + addP
    hookah := gifts.hookah
    afPoints := gifts.afPoints + addA
    cashBack := gifts.cashBack }

/-- algorithms.optimize_budget. -/
def optimize_budget (od : OrderData) (ct : CustomerType) (target_roi : ℚ) : GiftDict :=
  if is_gift_eligible od then
    topUp (recommend_gift od ct (calculate_budget_from_roi od target_roi))
      (calculate_budget_from_roi od target_roi)
  else ⟨0, 0, 0, 0⟩

/-- algorithms.calculate_roi: cash back is not part of the cost
("Removed Cash Back from calculation"). -/
def calculate_roi (od : OrderData) (gifts : GiftDict) (budget : ℚ) : ℚ :=
  if budget = 0 ∨ od.total_value = 0 then 0
  else round2 (((gifts.packFOC : ℚ) * 38 + (gifts.hookah : ℚ) * 400 +
      (gifts.afPoints : ℚ) * 1) / od.total_value * 100)

/-- Total monetary gift spend of an allocation in the unit costs of
algorithms.py: Pack FOC×38 + Hookah×400 + AF Points×1. -/
def giftSpend (g : GiftDict) : ℚ :=
  (g.packFOC : ℚ) * 38 + (g.hookah : ℚ) * 400 + (g.afPoints : ℚ) * 1

/-- All unit-counted quantities of an allocation are non-negative. -/
def giftNonneg (g : GiftDict) : Prop :=
  0 ≤ g.packFOC ∧ 0 ≤ g.hookah ∧ 0 ≤ g.afPoints

/-! ## app.py: tier classifier -/

/-- app.get_tier_requirements: (min_grams, max_grams, requires_1kg); the
Platinum maximum float("inf") is modelled as `none` (no upper bound). -/
def get_tier_requirements : Tier → ℚ × Option ℚ × Bool
  | Tier.Silver => (6000, some 60000, false)
  | Tier.Gold => (66050, some 120000, true)
  | Tier.Diamond => (126050, some 240000, true)
  | Tier.Platinum => (246050, none, true)

/-- The weight range of a tier (from get_tier_requirements) is satisfied. -/
def inTierRange (t : Tier) (w : ℚ) : Bool :=
  decide ((get_tier_requirements t).1 ≤ w) &&
    (match (get_tier_requirements t).2.1 with
     | none => true
     | some m => decide (w ≤ m))

/-- app.get_eligible_tier. -/
def get_eligible_tier (total_grams : ℚ) (has_1kg_order : Bool) : Option Tier :=
  if total_grams < 6000 then none
  else if 6000 ≤ total_grams ∧ total_grams ≤ 60000 then some Tier.Silver
  else if 66050 ≤ total_grams ∧ total_grams ≤ 120000 then
    some (if has_1kg_order then Tier.Gold else Tier.Silver)
  else if 126050 ≤ total_grams ∧ total_grams ≤ 240000 then
    some (if has_1kg_order then Tier.Diamond else Tier.Silver)
  else if 246050 ≤ total_grams then
    some (if has_1kg_order then Tier.Platinum else Tier.Silver)
  else none

/-! ## app.py: recalculate_gifts (the rebalancer) -/

/-- Cost of one gift type at the current slider values, as computed by the
costs dict of recalculate_gifts. -/
def cost (s : GiftDict) (V : ℚ) : GiftType → ℚ
  | GiftType.hookah => (s.hookah : ℚ) * 400
  | GiftType.packFOC => (s.packFOC : ℚ) * 38
  | GiftType.afPoints => (s.afPoints : ℚ) * 1
  | GiftType.cashBack => s.cashBack / 100 * V

/-- Total cost across the four gift types. -/
def totalCost (s : GiftDict) (V : ℚ) : ℚ :=
  cost s V GiftType.hookah + cost s V GiftType.packFOC +
    cost s V GiftType.afPoints + cost s V GiftType.cashBack

/-- Slider value of one gift type (the integer sliders cast to ℚ). -/
def qty (s : GiftDict) : GiftType → ℚ
  | GiftType.hookah => (s.hookah : ℚ)
  | GiftType.packFOC => (s.packFOC : ℚ)
  | GiftType.afPoints => (s.afPoints : ℚ)
  | GiftType.cashBack => s.cashBack

/-- Budget-exceeded branch of recalculate_gifts: every gift type other than
the changed one is set to 0. -/
def zeroOthers (s : GiftDict) (changed : GiftType) : GiftDict :=
  { packFOC := if changed = GiftType.packFOC then s.packFOC else 0
    hookah := if changed = GiftType.hookah then s.hookah else 0
    afPoints := if changed = GiftType.afPoints then s.afPoints else 0
    cashBack := if changed = GiftType.cashBack then s.cashBack else 0 }

/-- Priority allocation, hookah step: only for tobacco shops with at least
400 left, capped at 2 units. -/
def stepHookah (ct : CustomerType) (changed : GiftType) (x : GiftDict × ℚ) : GiftDict × ℚ :=
  if changed ≠ GiftType.hookah ∧ ct = CustomerType.TOBACCO_SHOP ∧ 400 ≤ x.2 then
    let n := min (pyInt (x.2 / 400)) 2
    ({ x.1 with hookah := n }, x.2 - (n : ℚ) * 400)
  else x

/-- Priority allocation, Pack FOC step. -/
def stepPack (changed : GiftType) (x : GiftDict × ℚ) : GiftDict × ℚ :=
  if changed ≠ GiftType.packFOC ∧ 38 ≤ x.2 then
    let n := pyInt (x.2 / 38)
    ({ x.1 with packFOC := n }, x.2 - (n : ℚ) * 38)
  else x

/-- Priority allocation, AF Points step. -/
def stepAF (changed : GiftType) (x : GiftDict × ℚ) : GiftDict × ℚ :=
  if changed ≠ GiftType.afPoints ∧ 0 < x.2 then
    let n := pyInt x.2
    ({ x.1 with afPoints := n }, x.2 - (n : ℚ))
  else x

/-- Priority allocation, Cash Back step (no budget subtraction afterwards). -/
def stepCash (V : ℚ) (changed : GiftType) (x : GiftDict × ℚ) : GiftDict :=
  if changed ≠ GiftType.cashBack ∧ 0 < x.2 ∧ 0 < V then
    { x.1 with cashBack := round1 (min 30 (x.2 / V * 100)) }
  else x.1

/-- Prioritized allocation branch of recalculate_gifts (taken when the other
gifts' total prior cost is ≤ 0 and budget remains). -/
def priorityAlloc (ct : CustomerType) (V : ℚ) (s : GiftDict) (changed : GiftType)
    (rem : ℚ) : GiftDict :=
  stepCash V changed (stepAF changed (stepPack changed (stepHookah ct changed (s, rem))))

/-- Proportional allocation branch of recalculate_gifts: each unchanged gift
gets remaining × (its prior cost / total prior cost of unchanged gifts);
the remaining budget is not decremented between gifts. -/
def propAlloc (V : ℚ) (s : GiftDict) (changed : GiftType) (rem totalOther : ℚ) : GiftDict :=
  let alloc : GiftType → ℚ := fun g => rem * (cost s V g / totalOther)
  { hookah := if changed = GiftType.hookah then s.hookah
      else if 400 ≤ alloc GiftType.hookah then min (pyInt (alloc GiftType.hookah / 400)) 2
      else 0
    packFOC := if changed = GiftType.packFOC then s.packFOC
      else if 38 ≤ alloc GiftType.packFOC then pyInt (alloc GiftType.packFOC / 38)
      else 0
    afPoints := if changed = GiftType.afPoints then s.afPoints
      else pyInt (alloc GiftType.afPoints)
    cashBack := if changed = GiftType.cashBack then s.cashBack
      else if 0 < V then round1 (min 30 (alloc GiftType.cashBack / V * 100))
      else s.cashBack }

/-- app.recalculate_gifts: `s` holds the four slider values with the changed
slider already at its new value; `B` is the selected offer's budget, `V` the
order total value. -/
def recalculate_gifts (ct : CustomerType) (B V : ℚ) (s : GiftDict)
    (changed : GiftType) : GiftDict :=
  let changedCost := cost s V changed
  let remaining := B - changedCost
  let totalOther := totalCost s V - changedCost
  if totalOther ≤ 0 then
    if remaining ≤ 0 then zeroOthers s changed
    else priorityAlloc ct V s changed remaining
  else
    if remaining ≤ 0 then zeroOthers s changed
    else propAlloc V s changed remaining totalOther

/-! ## Helper lemmas on the rounding primitives -/

theorem pyInt_nonneg {q : ℚ} (h : 0 ≤ q) : 0 ≤ pyInt q := by
  unfold pyInt
  rw [if_pos h]
  exact Int.floor_nonneg.2 h

theorem pyInt_cast_le {q : ℚ} (h : 0 ≤ q) : (pyInt q : ℚ) ≤ q := by
  unfold pyInt
  rw [if_pos h]
  exact Int.floor_le q

theorem roundHE_cast_le (q : ℚ) : (roundHE q : ℚ) ≤ q + 1/2 := by
  unfold roundHE
  have hf := Int.floor_le q
  split_ifs with h1 h2 h3
  · linarith
  · push_cast
    linarith
  · linarith
  · push_cast
    linarith

theorem roundHE_nonneg {q : ℚ} (h : 0 ≤ q) : 0 ≤ roundHE q := by
  unfold roundHE
  have hf : 0 ≤ ⌊q⌋ := Int.floor_nonneg.2 h
  split_ifs <;> omega

theorem round1_le (x : ℚ) : round1 x ≤ x + 1/20 := by
  unfold round1
  have h := roundHE_cast_le (x * 10)
  linarith

theorem round1_nonneg {x : ℚ} (h : 0 ≤ x) : 0 ≤ round1 x := by
  unfold round1
  have h2 : (0 : ℚ) ≤ (roundHE (x * 10) : ℚ) := by
    exact_mod_cast roundHE_nonneg (by linarith)
  linarith

/-- The cash-back assignment of the rebalancer costs at most its allocated
budget plus the rounding slack V/2000, and is non-negative. -/
theorem cashCost_bound {alloc V : ℚ} (ha : 0 ≤ alloc) (hV : 0 < V) :
    round1 (min 30 (alloc / V * 100)) / 100 * V ≤ alloc + V / 2000 ∧
      0 ≤ round1 (min 30 (alloc / V * 100)) / 100 * V := by
  have hx0 : 0 ≤ min 30 (alloc / V * 100) := by
    have : 0 ≤ alloc / V * 100 := by positivity
    exact le_min (by norm_num) this
  have hxle : min 30 (alloc / V * 100) ≤ alloc / V * 100 := min_le_right _ _
  have hr1 := round1_le (min 30 (alloc / V * 100))
  have hr0 := round1_nonneg hx0
  constructor
  · have h1 : round1 (min 30 (alloc / V * 100)) / 100 * V ≤
        (alloc / V * 100 + 1/20) / 100 * V := by
      have := hV.le
      have h2 : round1 (min 30 (alloc / V * 100)) ≤ alloc / V * 100 + 1/20 := by linarith
      have h3 : round1 (min 30 (alloc / V * 100)) / 100 ≤ (alloc / V * 100 + 1/20) / 100 := by
        linarith
      exact mul_le_mul_of_nonneg_right h3 this
    have h4 : (alloc / V * 100 + 1/20) / 100 * V = alloc + V / 2000 := by
      field_simp
      ring
    linarith
  · positivity

/-! ## Claim C3: tier classification -/

/-- C3: get_eligible_tier maps any weight inside a tier's range (per
get_tier_requirements) to that tier, degraded to Silver when the tier
requires the 1kg flag and the flag is false; any weight below 6000 g yields
no tier. -/
theorem tier_classifier_spec (w : ℚ) (flag : Bool) :
    (w < 6000 → get_eligible_tier w flag = none) ∧
    ∀ t : Tier, inTierRange t w = true →
      get_eligible_tier w flag =
        some (if (get_tier_requirements t).2.2 && !flag then Tier.Silver else t) := by
  constructor
  · intro h
    unfold get_eligible_tier
    rw [if_pos h]
  · intro t ht
    cases t <;>
      simp only [inTierRange, get_tier_requirements, Bool.and_eq_true, decide_eq_true_eq] at ht
    · obtain ⟨h1, h2⟩ := ht
      unfold get_eligible_tier
      rw [if_neg (not_lt.2 (by linarith)), if_pos ⟨h1, h2⟩]
      cases flag <;> simp [get_tier_requirements]
    · obtain ⟨h1, h2⟩ := ht
      unfold get_eligible_tier
      rw [if_neg (not_lt.2 (by linarith)), if_neg (by rintro ⟨ha, hb⟩; linarith),
        if_pos ⟨h1, h2⟩]
      cases flag <;> simp [get_tier_requirements]
    · obtain ⟨h1, h2⟩ := ht
      unfold get_eligible_tier
      rw [if_neg (not_lt.2 (by linarith)), if_neg (by rintro ⟨ha, hb⟩; linarith),
        if_neg (by rintro ⟨ha, hb⟩; linarith), if_pos ⟨h1, h2⟩]
      cases flag <;> simp [get_tier_requirements]
    · replace ht := ht.1
      unfold get_eligible_tier
      rw [if_neg (not_lt.2 (by linarith)), if_neg (by rintro ⟨ha, hb⟩; linarith),
        if_neg (by rintro ⟨ha, hb⟩; linarith), if_neg (by rintro ⟨ha, hb⟩; linarith),
        if_pos (by linarith)]
      cases flag <;> simp [get_tier_requirements]

/-- C3 witness: 5999 g yields no tier; 70000 g without the 1kg flag is in
Gold range but degrades to Silver. -/
theorem tier_classifier_spec_witness :
    (5999 : ℚ) < 6000 ∧ inTierRange Tier.Gold 70000 = true ∧
    get_eligible_tier 5999 true = none ∧
    get_eligible_tier 70000 false = some Tier.Silver := by
  refine ⟨by norm_num, by decide, (tier_classifier_spec 5999 true).1 (by norm_num), ?_⟩
  have h := (tier_classifier_spec 70000 false).2 Tier.Gold (by decide)
  simpa [get_tier_requirements] using h

/-! ## Claim C9: the tier ranges are not contiguous -/

/-- C9: any weight strictly inside one of the gaps between tier ranges
(60000–66050, 120000–126050, 240000–246050) yields no tier, whatever the
1kg flag. -/
theorem tier_gaps_none (w : ℚ) (flag : Bool)
    (h : (60000 < w ∧ w < 66050) ∨ (120000 < w ∧ w < 126050) ∨
      (240000 < w ∧ w < 246050)) :
    get_eligible_tier w flag = none := by
  rcases h with h | h | h <;> obtain ⟨h1, h2⟩ := h <;>
    (unfold get_eligible_tier
     rw [if_neg (not_lt.2 (by linarith)), if_neg (by rintro ⟨ha, hb⟩; linarith),
       if_neg (by rintro ⟨ha, hb⟩; linarith), if_neg (by rintro ⟨ha, hb⟩; linarith),
       if_neg (not_le.2 (by linarith))])

/-- C9 witness: 60001 g with the 1kg flag set still yields no tier. -/
theorem tier_gaps_none_witness :
    (60000 : ℚ) < 60001 ∧ (60001 : ℚ) < 66050 ∧
    get_eligible_tier 60001 true = none :=
  ⟨by norm_num, by norm_num, tier_gaps_none 60001 true (Or.inl ⟨by norm_num, by norm_num⟩)⟩

/-! ## Claim C4: ineligible orders get all-zero allocations -/

/-- C4: when the pack counts fail the gift-eligibility test (50g < 10 and
250g < 3 and 1kg < 2), recommend_gift and optimize_budget both return the
all-zero allocation, for every customer type, budget and target ROI. -/
theorem ineligible_zero (od : OrderData) (ct : CustomerType) (b roi : ℚ)
    (h50 : od.q50 < 10) (h250 : od.q250 < 3) (h1k : od.q1kg < 2) :
    recommend_gift od ct b = ⟨0, 0, 0, 0⟩ ∧ optimize_budget od ct roi = ⟨0, 0, 0, 0⟩ := by
  have he : is_gift_eligible od = false := by
    simp only [is_gift_eligible, Bool.or_eq_false_iff, decide_eq_false_iff_not, not_le]
    omega
  unfold recommend_gift optimize_budget
  rw [he]
  simp

/-- C4 witness: an order of 9 × 50g, 2 × 250g, 1 × 1kg is ineligible. -/
theorem ineligible_zero_witness :
    recommend_gift ⟨9, 2, 1, 500⟩ CustomerType.TOBACCO_SHOP 300 = ⟨0, 0, 0, 0⟩ ∧
    optimize_budget ⟨9, 2, 1, 500⟩ CustomerType.TOBACCO_SHOP 5 = ⟨0, 0, 0, 0⟩ :=
  ineligible_zero ⟨9, 2, 1, 500⟩ CustomerType.TOBACCO_SHOP 300 5 (by decide) (by decide)
    (by decide)

/-! ## Claim C5: calculate_roi -/

/-- Claim C5's asserted ROI formula, modelled from the spec wording of 4.6:
total gift cost additionally counts cash-back as its percentage of the order
value. Stated only to compare against the source's calculate_roi. -/
def roiWithCashBack (od : OrderData) (gifts : GiftDict) (budget : ℚ) : ℚ :=
  if budget = 0 ∨ od.total_value = 0 then 0
  else round2 (((gifts.packFOC : ℚ) * 38 + (gifts.hookah : ℚ) * 400 +
      (gifts.afPoints : ℚ) * 1 + gifts.cashBack / 100 * od.total_value) /
    od.total_value * 100)

/-- C5 counterexample: on an order of value 1000 with budget 100 and an
allocation holding only 10% cash back, calculate_roi returns 0 while the
claimed formula (counting cash-back) returns 10. -/
theorem calculate_roi_cashback_counterexample :
    calculate_roi ⟨0, 0, 0, 1000⟩ ⟨0, 0, 0, 10⟩ 100 = 0 ∧
    roiWithCashBack ⟨0, 0, 0, 1000⟩ ⟨0, 0, 0, 10⟩ 100 = 10 ∧
    calculate_roi ⟨0, 0, 0, 1000⟩ ⟨0, 0, 0, 10⟩ 100 ≠
      roiWithCashBack ⟨0, 0, 0, 1000⟩ ⟨0, 0, 0, 10⟩ 100 := by
  norm_num [calculate_roi, roiWithCashBack, round2, roundHE]

/-- C5 amended: calculate_roi returns 0 whenever budget = 0 or the order
total value = 0 (no exception), and otherwise rounds
(38·packFOC + 400·hookah + 1·afPoints) / total_value × 100 to two decimals;
cash-back is ignored entirely (the allocation's cash-back field never
affects the result). -/
theorem calculate_roi_spec (od : OrderData) (g : GiftDict) (b : ℚ) :
    calculate_roi od g b = calculate_roi od ⟨g.packFOC, g.hookah, g.afPoints, 0⟩ b ∧
    calculate_roi od g b =
      if b = 0 ∨ od.total_value = 0 then 0
      else round2 (((g.packFOC : ℚ) * 38 + (g.hookah : ℚ) * 400 + (g.afPoints : ℚ)) /
        od.total_value * 100) := by
  refine ⟨rfl, ?_⟩
  unfold calculate_roi
  split_ifs with h
  · rfl
  · congr 1
    ring

/-! ## Claim C8: concrete premium scenario -/

/-- C8: a tobacco-shop order with weighted score above 100 and budget 1000
gets 2 hookahs (consuming 800), then the remaining 200 splits 70/30 into
3 Pack FOC and 60 AF Points. -/
theorem premium_allocation (od : OrderData) (hw : 100 < weight_total od) :
    recommend_gift od CustomerType.TOBACCO_SHOP 1000 = ⟨3, 2, 60, 0⟩ := by
  have he : is_gift_eligible od = true := by
    simp only [is_gift_eligible, Bool.or_eq_true, decide_eq_true_eq]
    simp only [weight_total] at hw
    omega
  have hw0 : 0 < weight_total od := by omega
  have hfloor : ⌊(1000 : ℚ) / 400⌋ = 2 := by norm_num
  simp only [recommend_gift, he, if_true, hw0, hookahAlloc, hw, and_true, true_and,
    if_pos (by norm_num : (400 : ℚ) ≤ 1000), if_pos (by norm_num : (800 : ℚ) < 1000), hfloor]
  norm_num

/-- C8 witness: 6 × 1kg gives weighted score 120 > 100. -/
theorem premium_allocation_witness :
    100 < weight_total ⟨0, 0, 6, 2000⟩ ∧
    recommend_gift ⟨0, 0, 6, 2000⟩ CustomerType.TOBACCO_SHOP 1000 = ⟨3, 2, 60, 0⟩ :=
  ⟨by decide, premium_allocation ⟨0, 0, 6, 2000⟩ (by decide)⟩

/-! ## Claim C1: the allocators never over-spend the budget -/

/-- The hookah branch allocates a non-negative count and leaves a
non-negative budget, with count × 400 + leftover = budget. -/
theorem hookahAlloc_spec (ct : CustomerType) (w : ℕ) {b : ℚ} (hb : 0 ≤ b) :
    0 ≤ (hookahAlloc ct w b).1 ∧ 0 ≤ (hookahAlloc ct w b).2 ∧
      ((hookahAlloc ct w b).1 : ℚ) * 400 + (hookahAlloc ct w b).2 = b := by
  simp only [hookahAlloc]
  split_ifs with h1 h2 h3 <;> dsimp only
  · have hf : (0 : ℤ) ≤ ⌊b / 400⌋ := Int.floor_nonneg.2 (by positivity)
    have hmin : (0 : ℤ) ≤ min 2 ⌊b / 400⌋ := le_min (by norm_num) hf
    have h5 : ((min 2 ⌊b / 400⌋ : ℤ) : ℚ) ≤ (⌊b / 400⌋ : ℚ) := by
      exact_mod_cast min_le_right _ _
    have h6 : (⌊b / 400⌋ : ℚ) ≤ b / 400 := Int.floor_le _
    refine ⟨hmin, by linarith, by ring⟩
  · have h4 := h1.2
    exact ⟨by norm_num, by linarith, by push_cast; ring⟩
  · exact ⟨le_refl 0, hb, by push_cast; ring⟩
  · exact ⟨le_refl 0, hb, by push_cast; ring⟩

/-- recommend_gift allocates non-negative quantities and spends at most the
budget. -/
theorem recommend_gift_bound (od : OrderData) (ct : CustomerType) {b : ℚ} (hb : 0 ≤ b) :
    giftNonneg (recommend_gift od ct b) ∧ giftSpend (recommend_gift od ct b) ≤ b := by
  obtain ⟨h1, h2, h3⟩ := hookahAlloc_spec ct (weight_total od) hb
  simp only [recommend_gift]
  split_ifs with he hw
  · constructor
    · exact ⟨Int.floor_nonneg.2 (by positivity), h1,
        Int.floor_nonneg.2 (mul_nonneg (by norm_num) h2)⟩
    · simp only [giftSpend]
      have hp : (⌊7/10 * (hookahAlloc ct (weight_total od) b).2 / 38⌋ : ℚ) ≤
          7/10 * (hookahAlloc ct (weight_total od) b).2 / 38 := Int.floor_le _
      have ha : (⌊3/10 * (hookahAlloc ct (weight_total od) b).2⌋ : ℚ) ≤
          3/10 * (hookahAlloc ct (weight_total od) b).2 := Int.floor_le _
      linarith
  · refine ⟨⟨le_refl 0, le_refl 0, le_refl 0⟩, ?_⟩
    simp [giftSpend]
    linarith
  · refine ⟨⟨le_refl 0, le_refl 0, le_refl 0⟩, ?_⟩
    simp [giftSpend]
    linarith

/-- The greedy top-up keeps quantities non-negative and never exceeds the
budget it is given. -/
theorem topUp_bound (g : GiftDict) {b : ℚ} (hg : giftNonneg g) (hle : giftSpend g ≤ b) :
    giftNonneg (topUp g b) ∧ giftSpend (topUp g b) ≤ b := by
  obtain ⟨hp, hh, ha⟩ := hg
  have hle2 : (g.packFOC : ℚ) * 38 + (g.hookah : ℚ) * 400 + (g.afPoints : ℚ) * 1 ≤ b := hle
  simp only [topUp, giftNonneg, giftSpend]
  set rem : ℚ := b - ((g.packFOC : ℚ) * 38 + (g.hookah : ℚ) * 400 + (g.afPoints : ℚ) * 1)
    with hremdef
  have hrem : 0 ≤ rem := by rw [hremdef]; linarith
  split_ifs with h38 h1a h1b
  · have hk0 : (0 : ℤ) ≤ ⌊rem / 38⌋ := Int.floor_nonneg.2 (by positivity)
    have hkle : (⌊rem / 38⌋ : ℚ) ≤ rem / 38 := Int.floor_le _
    have hm0 : (0 : ℤ) ≤ ⌊rem - (⌊rem / 38⌋ : ℚ) * 38⌋ := Int.floor_nonneg.2 (by linarith)
    have hmle : (⌊rem - (⌊rem / 38⌋ : ℚ) * 38⌋ : ℚ) ≤ rem - (⌊rem / 38⌋ : ℚ) * 38 :=
      Int.floor_le _
    refine ⟨⟨by omega, hh, by omega⟩, ?_⟩
    push_cast
    linarith [hremdef]
  · have hk0 : (0 : ℤ) ≤ ⌊rem / 38⌋ := Int.floor_nonneg.2 (by positivity)
    have hkle : (⌊rem / 38⌋ : ℚ) ≤ rem / 38 := Int.floor_le _
    refine ⟨⟨by omega, hh, by omega⟩, ?_⟩
    push_cast
    linarith [hremdef]
  · simp only [Int.cast_zero, zero_mul, sub_zero] at h1b ⊢
    have hm0 : (0 : ℤ) ≤ ⌊rem⌋ := Int.floor_nonneg.2 hrem
    have hmle : (⌊rem⌋ : ℚ) ≤ rem := Int.floor_le _
    refine ⟨⟨by omega, hh, by omega⟩, ?_⟩
    push_cast
    linarith [hremdef]
  · refine ⟨⟨by omega, hh, by omega⟩, ?_⟩
    push_cast
    linarith [hremdef]

/-- C1: for every order, customer type and non-negative budget the
recommend_gift allocation satisfies 38·PackFOC + 400·Hookah + 1·AFPoints ≤
budget with non-negative integer quantities; likewise optimize_budget
against its derived budget (non-negative order value and target ROI). -/
theorem budget_invariant (od : OrderData) (ct : CustomerType) (b roi : ℚ)
    (hb : 0 ≤ b) (hV : 0 ≤ od.total_value) (hroi : 0 ≤ roi) :
    (giftNonneg (recommend_gift od ct b) ∧ giftSpend (recommend_gift od ct b) ≤ b) ∧
    (giftNonneg (optimize_budget od ct roi) ∧
      giftSpend (optimize_budget od ct roi) ≤ calculate_budget_from_roi od roi) := by
  have hbudget : 0 ≤ calculate_budget_from_roi od roi := by
    unfold calculate_budget_from_roi
    positivity
  refine ⟨recommend_gift_bound od ct hb, ?_⟩
  unfold optimize_budget
  split_ifs with he
  · exact topUp_bound _ (recommend_gift_bound od ct hbudget).1
      (recommend_gift_bound od ct hbudget).2
  · refine ⟨⟨le_refl 0, le_refl 0, le_refl 0⟩, ?_⟩
    simp [giftSpend]
    linarith

/-- C1 witness at the spec's scenario-1 order (10 × 50g, value 328),
budget 20 and target ROI 5%. -/
theorem budget_invariant_witness :
    (giftNonneg (recommend_gift ⟨10, 0, 0, 328⟩ CustomerType.RETAILER 20) ∧
      giftSpend (recommend_gift ⟨10, 0, 0, 328⟩ CustomerType.RETAILER 20) ≤ 20) ∧
    (giftNonneg (optimize_budget ⟨10, 0, 0, 328⟩ CustomerType.RETAILER 5) ∧
      giftSpend (optimize_budget ⟨10, 0, 0, 328⟩ CustomerType.RETAILER 5) ≤
        calculate_budget_from_roi ⟨10, 0, 0, 328⟩ 5) :=
  budget_invariant ⟨10, 0, 0, 328⟩ CustomerType.RETAILER 20 5 (by norm_num) (by norm_num)
    (by norm_num)

/-! ## Claim C6: the greedy top-up of optimize_budget -/

/-- C6: for every eligible order, optimize_budget keeps the Hookah quantity
of the initial recommend_gift allocation at the derived budget (never
revisits hardware), adds floor(remaining/38) Pack FOC units exactly when the
remaining budget exceeds 38, and then adds floor(still-remaining) AF Points
exactly when the still-remaining budget exceeds 1 — bulk units before
points. -/
theorem optimize_topup_behavior (od : OrderData) (ct : CustomerType) (roi : ℚ)
    (he : is_gift_eligible od = true) :
    let b := calculate_budget_from_roi od roi
    let g0 := recommend_gift od ct b
    let rem := b - giftSpend g0
    let addP : ℤ := if 38 < rem then ⌊rem / 38⌋ else 0
    let rem2 := rem - (addP : ℚ) * 38
    let addA : ℤ := if 1 < rem2 then ⌊rem2⌋ else 0
    (optimize_budget od ct roi).hookah = g0.hookah ∧
    (optimize_budget od ct roi).packFOC = g0.packFOC + addP ∧
    (optimize_budget od ct roi).afPoints = g0.afPoints + addA := by
  dsimp only
  unfold optimize_budget
  rw [he]
  simp only [if_true]
  unfold topUp giftSpend
  exact ⟨rfl, rfl, rfl⟩

/-- C6 witness at the order 10 × 50g of value 328 with target ROI 5%. -/
theorem optimize_topup_behavior_witness :
    is_gift_eligible ⟨10, 0, 0, 328⟩ = true ∧
    (optimize_budget ⟨10, 0, 0, 328⟩ CustomerType.RETAILER 5).hookah =
      (recommend_gift ⟨10, 0, 0, 328⟩ CustomerType.RETAILER
        (calculate_budget_from_roi ⟨10, 0, 0, 328⟩ 5)).hookah :=
  ⟨by decide,
    (optimize_topup_behavior ⟨10, 0, 0, 328⟩ CustomerType.RETAILER 5 (by decide)).1⟩

/-! ## Rebalancer lemmas -/

theorem stepHookah_packFOC (ct : CustomerType) (changed : GiftType) (x : GiftDict × ℚ) :
    (stepHookah ct changed x).1.packFOC = x.1.packFOC := by
  unfold stepHookah
  split_ifs <;> rfl

theorem stepHookah_afPoints (ct : CustomerType) (changed : GiftType) (x : GiftDict × ℚ) :
    (stepHookah ct changed x).1.afPoints = x.1.afPoints := by
  unfold stepHookah
  split_ifs <;> rfl

theorem stepHookah_cashBack (ct : CustomerType) (changed : GiftType) (x : GiftDict × ℚ) :
    (stepHookah ct changed x).1.cashBack = x.1.cashBack := by
  unfold stepHookah
  split_ifs <;> rfl

theorem stepPack_hookah (changed : GiftType) (x : GiftDict × ℚ) :
    (stepPack changed x).1.hookah = x.1.hookah := by
  unfold stepPack
  split_ifs <;> rfl

theorem stepPack_afPoints (changed : GiftType) (x : GiftDict × ℚ) :
    (stepPack changed x).1.afPoints = x.1.afPoints := by
  unfold stepPack
  split_ifs <;> rfl

theorem stepPack_cashBack (changed : GiftType) (x : GiftDict × ℚ) :
    (stepPack changed x).1.cashBack = x.1.cashBack := by
  unfold stepPack
  split_ifs <;> rfl

theorem stepAF_hookah (changed : GiftType) (x : GiftDict × ℚ) :
    (stepAF changed x).1.hookah = x.1.hookah := by
  unfold stepAF
  split_ifs <;> rfl

theorem stepAF_packFOC (changed : GiftType) (x : GiftDict × ℚ) :
    (stepAF changed x).1.packFOC = x.1.packFOC := by
  unfold stepAF
  split_ifs <;> rfl

theorem stepAF_cashBack (changed : GiftType) (x : GiftDict × ℚ) :
    (stepAF changed x).1.cashBack = x.1.cashBack := by
  unfold stepAF
  split_ifs <;> rfl

theorem stepCash_hookah (V : ℚ) (changed : GiftType) (x : GiftDict × ℚ) :
    (stepCash V changed x).hookah = x.1.hookah := by
  unfold stepCash
  split_ifs <;> rfl

theorem stepCash_packFOC (V : ℚ) (changed : GiftType) (x : GiftDict × ℚ) :
    (stepCash V changed x).packFOC = x.1.packFOC := by
  unfold stepCash
  split_ifs <;> rfl

theorem stepCash_afPoints (V : ℚ) (changed : GiftType) (x : GiftDict × ℚ) :
    (stepCash V changed x).afPoints = x.1.afPoints := by
  unfold stepCash
  split_ifs <;> rfl

/-- The hookah step of the priority branch does not increase total cost plus
remaining budget, and keeps the remaining budget non-negative. -/
theorem stepHookah_S (ct : CustomerType) (changed : GiftType) (x : GiftDict × ℚ) (V : ℚ)
    (hold : 0 ≤ x.1.hookah) :
    totalCost (stepHookah ct changed x).1 V + (stepHookah ct changed x).2 ≤
      totalCost x.1 V + x.2 ∧
    (0 ≤ x.2 → 0 ≤ (stepHookah ct changed x).2) := by
  unfold stepHookah
  split_ifs with h
  · obtain ⟨hne, hct, h400⟩ := h
    have hd : (0 : ℚ) ≤ x.2 / 400 := by linarith
    have hp2 : (pyInt (x.2 / 400) : ℚ) ≤ x.2 / 400 := pyInt_cast_le hd
    have hm1 : ((min (pyInt (x.2 / 400)) 2 : ℤ) : ℚ) ≤ (pyInt (x.2 / 400) : ℚ) := by
      exact_mod_cast min_le_left _ _
    have key : ((min (pyInt (x.2 / 400)) 2 : ℤ) : ℚ) * 400 ≤ x.2 := by linarith
    have hold2 : (0 : ℚ) ≤ (x.1.hookah : ℚ) := by exact_mod_cast hold
    constructor
    · simp only [totalCost, cost]
      try dsimp only
      linarith
    · intro h2
      show (0 : ℚ) ≤ x.2 - ((min (pyInt (x.2 / 400)) 2 : ℤ) : ℚ) * 400
      linarith
  · exact ⟨le_refl _, fun h2 => h2⟩

/-- The Pack FOC step of the priority branch does not increase total cost
plus remaining budget, and keeps the remaining budget non-negative. -/
theorem stepPack_S (changed : GiftType) (x : GiftDict × ℚ) (V : ℚ)
    (hold : 0 ≤ x.1.packFOC) :
    totalCost (stepPack changed x).1 V + (stepPack changed x).2 ≤ totalCost x.1 V + x.2 ∧
    (0 ≤ x.2 → 0 ≤ (stepPack changed x).2) := by
  unfold stepPack
  split_ifs with h
  · obtain ⟨hne, h38⟩ := h
    have hd : (0 : ℚ) ≤ x.2 / 38 := by linarith
    have hp2 : (pyInt (x.2 / 38) : ℚ) ≤ x.2 / 38 := pyInt_cast_le hd
    have key : (pyInt (x.2 / 38) : ℚ) * 38 ≤ x.2 := by linarith
    have hold2 : (0 : ℚ) ≤ (x.1.packFOC : ℚ) := by exact_mod_cast hold
    constructor
    · simp only [totalCost, cost]
      try dsimp only
      linarith
    · intro h2
      show (0 : ℚ) ≤ x.2 - ((pyInt (x.2 / 38) : ℤ) : ℚ) * 38
      linarith
  · exact ⟨le_refl _, fun h2 => h2⟩

/-- The AF Points step of the priority branch does not increase total cost
plus remaining budget, and keeps the remaining budget non-negative. -/
theorem stepAF_S (changed : GiftType) (x : GiftDict × ℚ) (V : ℚ)
    (hold : 0 ≤ x.1.afPoints) :
    totalCost (stepAF changed x).1 V + (stepAF changed x).2 ≤ totalCost x.1 V + x.2 ∧
    (0 ≤ x.2 → 0 ≤ (stepAF changed x).2) := by
  unfold stepAF
  split_ifs with h
  · obtain ⟨hne, h0⟩ := h
    have hp2 : (pyInt x.2 : ℚ) ≤ x.2 := pyInt_cast_le h0.le
    have hold2 : (0 : ℚ) ≤ (x.1.afPoints : ℚ) := by exact_mod_cast hold
    constructor
    · simp only [totalCost, cost]
      try dsimp only
      linarith
    · intro h2
      show (0 : ℚ) ≤ x.2 - ((pyInt x.2 : ℤ) : ℚ)
      linarith
  · exact ⟨le_refl _, fun h2 => h2⟩

/-- The cash-back step of the priority branch spends at most the remaining
budget plus the V/2000 rounding slack. -/
theorem stepCash_total (V : ℚ) (changed : GiftType) (x : GiftDict × ℚ)
    (hV : 0 ≤ V) (hx2 : 0 ≤ x.2) (hold : 0 ≤ x.1.cashBack) :
    totalCost (stepCash V changed x) V ≤ totalCost x.1 V + x.2 + V / 2000 := by
  unfold stepCash
  split_ifs with h
  · obtain ⟨hne, h0, hV0⟩ := h
    obtain ⟨hle, hnn⟩ := cashCost_bound hx2 hV0
    have holdc : (0 : ℚ) ≤ x.1.cashBack / 100 * V := by positivity
    simp only [totalCost, cost]
    linarith
  · have h2000 : (0 : ℚ) ≤ V / 2000 := by positivity
    linarith

/-- Chaining the four priority steps: total cost of the result is bounded by
the prior total cost plus the remaining budget plus the cash-back rounding
slack. -/
theorem priorityAlloc_total (ct : CustomerType) (V : ℚ) (s : GiftDict) (changed : GiftType)
    (rem : ℚ) (hV : 0 ≤ V) (hrem : 0 ≤ rem) (hh : 0 ≤ s.hookah) (hp : 0 ≤ s.packFOC)
    (ha : 0 ≤ s.afPoints) (hc : 0 ≤ s.cashBack) :
    totalCost (priorityAlloc ct V s changed rem) V ≤ totalCost s V + rem + V / 2000 := by
  unfold priorityAlloc
  set x0 : GiftDict × ℚ := (s, rem) with hx0
  set x1 := stepHookah ct changed x0 with hx1
  set x2 := stepPack changed x1 with hx2
  set x3 := stepAF changed x2 with hx3
  obtain ⟨hS1, hr1⟩ := stepHookah_S ct changed x0 V hh
  have hr1b : 0 ≤ x1.2 := hr1 hrem
  obtain ⟨hS2, hr2⟩ := stepPack_S changed x1 V
    (by rw [hx1, stepHookah_packFOC]; exact hp)
  have hr2b : 0 ≤ x2.2 := hr2 hr1b
  obtain ⟨hS3, hr3⟩ := stepAF_S changed x2 V
    (by rw [hx2, stepPack_afPoints, hx1, stepHookah_afPoints]; exact ha)
  have hr3b : 0 ≤ x3.2 := hr3 hr2b
  have hcash : 0 ≤ x3.1.cashBack := by
    rw [hx3, stepAF_cashBack, hx2, stepPack_cashBack, hx1, stepHookah_cashBack]
    exact hc
  have hfinal := stepCash_total V changed x3 hV hr3b hcash
  have e0 : totalCost x0.1 V + x0.2 = totalCost s V + rem := rfl
  linarith

/-- Proportional-branch hookah field: cost is within the allocated share. -/
theorem hookahFieldCost {alloc : ℚ} (h : 0 ≤ alloc) :
    0 ≤ ((if 400 ≤ alloc then min (pyInt (alloc / 400)) 2 else 0 : ℤ) : ℚ) * 400 ∧
    ((if 400 ≤ alloc then min (pyInt (alloc / 400)) 2 else 0 : ℤ) : ℚ) * 400 ≤ alloc := by
  split_ifs with h4
  · have hd : (0 : ℚ) ≤ alloc / 400 := by positivity
    have h1 : (0 : ℤ) ≤ pyInt (alloc / 400) := pyInt_nonneg hd
    have h2 : (pyInt (alloc / 400) : ℚ) ≤ alloc / 400 := pyInt_cast_le hd
    have h3 : ((min (pyInt (alloc / 400)) 2 : ℤ) : ℚ) ≤ (pyInt (alloc / 400) : ℚ) := by
      exact_mod_cast min_le_left _ _
    have h0q : (0 : ℚ) ≤ ((min (pyInt (alloc / 400)) 2 : ℤ) : ℚ) := by
      exact_mod_cast le_min h1 (by norm_num : (0 : ℤ) ≤ 2)
    constructor
    · linarith
    · linarith
  · constructor
    · push_cast
      norm_num
    · push_cast
      norm_num
      exact h

/-- Proportional-branch Pack FOC field: cost is within the allocated share. -/
theorem packFieldCost {alloc : ℚ} (h : 0 ≤ alloc) :
    0 ≤ ((if 38 ≤ alloc then pyInt (alloc / 38) else 0 : ℤ) : ℚ) * 38 ∧
    ((if 38 ≤ alloc then pyInt (alloc / 38) else 0 : ℤ) : ℚ) * 38 ≤ alloc := by
  split_ifs with h4
  · have hd : (0 : ℚ) ≤ alloc / 38 := by positivity
    have h1 : (0 : ℚ) ≤ (pyInt (alloc / 38) : ℚ) := by exact_mod_cast pyInt_nonneg hd
    have h2 : (pyInt (alloc / 38) : ℚ) ≤ alloc / 38 := pyInt_cast_le hd
    constructor
    · linarith
    · linarith
  · constructor
    · push_cast
      norm_num
    · push_cast
      norm_num
      exact h

/-- Proportional-branch cash-back field: cost is within the allocated share
plus the rounding slack. -/
theorem cashFieldCost {alloc V old : ℚ} (h : 0 ≤ alloc) (hV : 0 ≤ V) :
    0 ≤ (if 0 < V then round1 (min 30 (alloc / V * 100)) else old) / 100 * V ∧
    (if 0 < V then round1 (min 30 (alloc / V * 100)) else old) / 100 * V ≤
      alloc + V / 2000 := by
  split_ifs with hV0
  · obtain ⟨hle, hnn⟩ := cashCost_bound h hV0
    exact ⟨hnn, hle⟩
  · have hz : V = 0 := le_antisymm (not_lt.1 hV0) hV
    rw [hz]
    constructor
    · norm_num
    · norm_num
      exact h

/-- Splitting a budget proportionally to three cost shares allocates exactly
the budget. -/
theorem alloc_sum (rem T c1 c2 c3 : ℚ) (hT : T ≠ 0) (h : c1 + c2 + c3 = T) :
    rem * (c1 / T) + rem * (c2 / T) + rem * (c3 / T) = rem := by
  have e : rem * (c1 / T) + rem * (c2 / T) + rem * (c3 / T) =
      rem * ((c1 + c2 + c3) / T) := by ring
  rw [e, h, div_self hT, mul_one]

/-- The proportional branch spends at most the remaining budget plus the
cash-back rounding slack, on top of the changed gift's own cost. -/
theorem propAlloc_total (V : ℚ) (s : GiftDict) (changed : GiftType) (rem T : ℚ)
    (hV : 0 ≤ V) (hrem : 0 ≤ rem) (hT : 0 < T)
    (hsum : totalCost s V - cost s V changed = T)
    (hcosts : ∀ g, 0 ≤ cost s V g) :
    totalCost (propAlloc V s changed rem T) V ≤ cost s V changed + rem + V / 2000 := by
  have hslack : (0 : ℚ) ≤ V / 2000 := by positivity
  cases changed with
  | hookah =>
    have hcP : (0 : ℚ) ≤ (s.packFOC : ℚ) * 38 := hcosts GiftType.packFOC
    have hcA : (0 : ℚ) ≤ (s.afPoints : ℚ) * 1 := hcosts GiftType.afPoints
    have hcC : (0 : ℚ) ≤ s.cashBack / 100 * V := hcosts GiftType.cashBack
    have haP : (0 : ℚ) ≤ rem * ((s.packFOC : ℚ) * 38 / T) :=
      mul_nonneg hrem (div_nonneg hcP hT.le)
    have haA : (0 : ℚ) ≤ rem * ((s.afPoints : ℚ) * 1 / T) :=
      mul_nonneg hrem (div_nonneg hcA hT.le)
    have haC : (0 : ℚ) ≤ rem * (s.cashBack / 100 * V / T) :=
      mul_nonneg hrem (div_nonneg hcC hT.le)
    obtain ⟨hP0, hPle⟩ := packFieldCost haP
    have hA1 : (pyInt (rem * ((s.afPoints : ℚ) * 1 / T)) : ℚ) ≤
        rem * ((s.afPoints : ℚ) * 1 / T) := pyInt_cast_le haA
    have hA0 : (0 : ℚ) ≤ (pyInt (rem * ((s.afPoints : ℚ) * 1 / T)) : ℚ) := by
      exact_mod_cast pyInt_nonneg haA
    obtain ⟨hC0, hCle⟩ := @cashFieldCost _ V s.cashBack haC hV
    have hsum3 := alloc_sum rem T ((s.packFOC : ℚ) * 38) ((s.afPoints : ℚ) * 1)
      (s.cashBack / 100 * V) hT.ne'
      (by simp only [totalCost, cost] at hsum; linarith)
    simp +decide only [propAlloc, totalCost, cost, if_true, if_false]
    linarith
  | packFOC =>
    have hcH : (0 : ℚ) ≤ (s.hookah : ℚ) * 400 := hcosts GiftType.hookah
    have hcA : (0 : ℚ) ≤ (s.afPoints : ℚ) * 1 := hcosts GiftType.afPoints
    have hcC : (0 : ℚ) ≤ s.cashBack / 100 * V := hcosts GiftType.cashBack
    have haH : (0 : ℚ) ≤ rem * ((s.hookah : ℚ) * 400 / T) :=
      mul_nonneg hrem (div_nonneg hcH hT.le)
    have haA : (0 : ℚ) ≤ rem * ((s.afPoints : ℚ) * 1 / T) :=
      mul_nonneg hrem (div_nonneg hcA hT.le)
    have haC : (0 : ℚ) ≤ rem * (s.cashBack / 100 * V / T) :=
      mul_nonneg hrem (div_nonneg hcC hT.le)
    obtain ⟨hH0, hHle⟩ := hookahFieldCost haH
    have hA1 : (pyInt (rem * ((s.afPoints : ℚ) * 1 / T)) : ℚ) ≤
        rem * ((s.afPoints : ℚ) * 1 / T) := pyInt_cast_le haA
    have hA0 : (0 : ℚ) ≤ (pyInt (rem * ((s.afPoints : ℚ) * 1 / T)) : ℚ) := by
      exact_mod_cast pyInt_nonneg haA
    obtain ⟨hC0, hCle⟩ := @cashFieldCost _ V s.cashBack haC hV
    have hsum3 := alloc_sum rem T ((s.hookah : ℚ) * 400) ((s.afPoints : ℚ) * 1)
      (s.cashBack / 100 * V) hT.ne'
      (by simp only [totalCost, cost] at hsum; linarith)
    simp +decide only [propAlloc, totalCost, cost, if_true, if_false]
    linarith
  | afPoints =>
    have hcH : (0 : ℚ) ≤ (s.hookah : ℚ) * 400 := hcosts GiftType.hookah
    have hcP : (0 : ℚ) ≤ (s.packFOC : ℚ) * 38 := hcosts GiftType.packFOC
    have hcC : (0 : ℚ) ≤ s.cashBack / 100 * V := hcosts GiftType.cashBack
    have haH : (0 : ℚ) ≤ rem * ((s.hookah : ℚ) * 400 / T) :=
      mul_nonneg hrem (div_nonneg hcH hT.le)
    have haP : (0 : ℚ) ≤ rem * ((s.packFOC : ℚ) * 38 / T) :=
      mul_nonneg hrem (div_nonneg hcP hT.le)
    have haC : (0 : ℚ) ≤ rem * (s.cashBack / 100 * V / T) :=
      mul_nonneg hrem (div_nonneg hcC hT.le)
    obtain ⟨hH0, hHle⟩ := hookahFieldCost haH
    obtain ⟨hP0, hPle⟩ := packFieldCost haP
    obtain ⟨hC0, hCle⟩ := @cashFieldCost _ V s.cashBack haC hV
    have hsum3 := alloc_sum rem T ((s.hookah : ℚ) * 400) ((s.packFOC : ℚ) * 38)
      (s.cashBack / 100 * V) hT.ne'
      (by simp only [totalCost, cost] at hsum; linarith)
    simp +decide only [propAlloc, totalCost, cost, if_true, if_false]
    linarith
  | cashBack =>
    have hcH : (0 : ℚ) ≤ (s.hookah : ℚ) * 400 := hcosts GiftType.hookah
    have hcP : (0 : ℚ) ≤ (s.packFOC : ℚ) * 38 := hcosts GiftType.packFOC
    have hcA : (0 : ℚ) ≤ (s.afPoints : ℚ) * 1 := hcosts GiftType.afPoints
    have haH : (0 : ℚ) ≤ rem * ((s.hookah : ℚ) * 400 / T) :=
      mul_nonneg hrem (div_nonneg hcH hT.le)
    have haP : (0 : ℚ) ≤ rem * ((s.packFOC : ℚ) * 38 / T) :=
      mul_nonneg hrem (div_nonneg hcP hT.le)
    have haA : (0 : ℚ) ≤ rem * ((s.afPoints : ℚ) * 1 / T) :=
      mul_nonneg hrem (div_nonneg hcA hT.le)
    obtain ⟨hH0, hHle⟩ := hookahFieldCost haH
    obtain ⟨hP0, hPle⟩ := packFieldCost haP
    have hA1 : (pyInt (rem * ((s.afPoints : ℚ) * 1 / T)) : ℚ) ≤
        rem * ((s.afPoints : ℚ) * 1 / T) := pyInt_cast_le haA
    have hA0 : (0 : ℚ) ≤ (pyInt (rem * ((s.afPoints : ℚ) * 1 / T)) : ℚ) := by
      exact_mod_cast pyInt_nonneg haA
    have hsum3 := alloc_sum rem T ((s.hookah : ℚ) * 400) ((s.packFOC : ℚ) * 38)
      ((s.afPoints : ℚ) * 1) hT.ne'
      (by simp only [totalCost, cost] at hsum; linarith)
    simp +decide only [propAlloc, totalCost, cost, if_true, if_false]
    linarith

/-- With non-negative slider values and order value, every gift cost is
non-negative. -/
theorem cost_nonneg (s : GiftDict) (V : ℚ) (hh : 0 ≤ s.hookah) (hp : 0 ≤ s.packFOC)
    (ha : 0 ≤ s.afPoints) (hc : 0 ≤ s.cashBack) (hV : 0 ≤ V) :
    ∀ g : GiftType, 0 ≤ cost s V g := by
  intro g
  cases g
  · exact mul_nonneg (by exact_mod_cast hh) (by norm_num)
  · exact mul_nonneg (by exact_mod_cast hp) (by norm_num)
  · exact mul_nonneg (by exact_mod_cast ha) (by norm_num)
  · exact mul_nonneg (div_nonneg hc (by norm_num)) hV

/-- When the other gifts' total prior cost is ≤ 0 and all costs are
non-negative, the whole prior cost is the changed gift's cost. -/
theorem others_cost_zero (s : GiftDict) (V : ℚ) (changed : GiftType)
    (hn : ∀ g : GiftType, 0 ≤ cost s V g)
    (hto : totalCost s V - cost s V changed ≤ 0) :
    totalCost s V = cost s V changed := by
  have h1 := hn GiftType.hookah
  have h2 := hn GiftType.packFOC
  have h3 := hn GiftType.afPoints
  have h4 := hn GiftType.cashBack
  cases changed <;> simp only [totalCost] at hto ⊢ <;> linarith

/-- Zeroing the unchanged gifts leaves exactly the changed gift's cost. -/
theorem zeroOthers_total (s : GiftDict) (changed : GiftType) (V : ℚ) :
    totalCost (zeroOthers s changed) V = cost s V changed := by
  cases changed <;>
    simp +decide only [zeroOthers, totalCost, cost, if_true, if_false] <;>
    push_cast <;> ring

/-! ## Claim C2: rebalancer budget slack -/

/-- C2 counterexample: retailer, budget 1000, order value 20000, all sliders
0 except AF Points changed to 968. The rebalancer gives the remaining $32 to
cash back, which rounds 0.16% up to 0.2% = $40, for a total of $1008 —
more than budget + $1 (one unit of the cheapest gift type). -/
theorem rebalance_slack_counterexample :
    ¬ totalCost (recalculate_gifts CustomerType.RETAILER 1000 20000 ⟨0, 0, 968, 0⟩
        GiftType.afPoints) 20000 ≤ 1000 + 1 := by
  norm_num +decide [recalculate_gifts, cost, totalCost, priorityAlloc, stepHookah,
    stepPack, stepAF, stepCash, zeroOthers, propAlloc, pyInt, round1, roundHE]

/-- C2 amended: after any rebalance call with non-negative current
quantities and order value, the total cost of the full allocation is at most
the changed gift's own (uncapped) cost, plus the remaining budget
max(0, budget − changed cost), plus a cash-back rounding slack of
order_value/2000 (0.05% of the order value, from rounding the cash-back
percentage to one decimal) — not the claimed $1 slack over the budget. -/
theorem rebalance_budget_slack (ct : CustomerType) (B V : ℚ) (s : GiftDict)
    (changed : GiftType) (hh : 0 ≤ s.hookah) (hp : 0 ≤ s.packFOC) (ha : 0 ≤ s.afPoints)
    (hc : 0 ≤ s.cashBack) (hV : 0 ≤ V) :
    totalCost (recalculate_gifts ct B V s changed) V ≤
      cost s V changed + max 0 (B - cost s V changed) + V / 2000 := by
  have hn := cost_nonneg s V hh hp ha hc hV
  have hmax0 : (0 : ℚ) ≤ max 0 (B - cost s V changed) := le_max_left _ _
  have hmax1 : B - cost s V changed ≤ max 0 (B - cost s V changed) := le_max_right _ _
  have hslack : (0 : ℚ) ≤ V / 2000 := by positivity
  simp only [recalculate_gifts]
  split_ifs with h1 h2 h3
  · rw [zeroOthers_total]
    linarith
  · have hto := others_cost_zero s V changed hn h1
    have hb := priorityAlloc_total ct V s changed (B - cost s V changed) hV
      (by linarith) hh hp ha hc
    rw [hto] at hb
    linarith
  · rw [zeroOthers_total]
    linarith
  · have hb := propAlloc_total V s changed (B - cost s V changed)
      (totalCost s V - cost s V changed) hV (by linarith) (by linarith) rfl hn
    linarith

/-- C2 amended witness at the counterexample input: the amended bound
968 + max(0, 32) + 10 = 1010 does hold for the rebalanced total of 1008. -/
theorem rebalance_budget_slack_witness :
    totalCost (recalculate_gifts CustomerType.RETAILER 1000 20000 ⟨0, 0, 968, 0⟩
        GiftType.afPoints) 20000 ≤
      cost ⟨0, 0, 968, 0⟩ 20000 GiftType.afPoints +
        max 0 (1000 - cost ⟨0, 0, 968, 0⟩ 20000 GiftType.afPoints) + 20000 / 2000 :=
  rebalance_budget_slack CustomerType.RETAILER 1000 20000 ⟨0, 0, 968, 0⟩
    GiftType.afPoints (by decide) (by decide) (by decide) (by decide) (by decide)

/-! ## Claim C7: budget exceeded by the changed gift -/

/-- C7: whenever the changed gift's new cost reaches the whole offer budget
(remaining ≤ 0), every other gift type is zeroed while the changed gift
keeps its new value — a terminal state, not an error. -/
theorem rebalance_budget_exceeded (ct : CustomerType) (B V : ℚ) (s : GiftDict)
    (changed : GiftType) (h : B - cost s V changed ≤ 0) :
    (∀ g : GiftType, g ≠ changed → qty (recalculate_gifts ct B V s changed) g = 0) ∧
    qty (recalculate_gifts ct B V s changed) changed = qty s changed := by
  have hres : recalculate_gifts ct B V s changed = zeroOthers s changed := by
    simp only [recalculate_gifts]
    split_ifs <;> rfl
  rw [hres]
  constructor
  · intro g hg
    cases changed <;> cases g <;> simp_all +decide [zeroOthers, qty]
  · cases changed <;> simp +decide [zeroOthers, qty]

/-- C7 witness: tobacco shop, budget 400, order value 2000, cash back
changed to 30% (cost 600 > 400): hookah is zeroed, cash back keeps 30. -/
theorem rebalance_budget_exceeded_witness :
    qty (recalculate_gifts CustomerType.TOBACCO_SHOP 400 2000 ⟨2, 1, 5, 30⟩
      GiftType.cashBack) GiftType.hookah = 0 ∧
    qty (recalculate_gifts CustomerType.TOBACCO_SHOP 400 2000 ⟨2, 1, 5, 30⟩
      GiftType.cashBack) GiftType.cashBack = qty ⟨2, 1, 5, 30⟩ GiftType.cashBack :=
  ⟨(rebalance_budget_exceeded CustomerType.TOBACCO_SHOP 400 2000 ⟨2, 1, 5, 30⟩
      GiftType.cashBack (by norm_num [cost])).1 GiftType.hookah (by decide),
    (rebalance_budget_exceeded CustomerType.TOBACCO_SHOP 400 2000 ⟨2, 1, 5, 30⟩
      GiftType.cashBack (by norm_num [cost])).2⟩

/-! ## Claim C10: rebalancing never introduces hardware for a retailer -/

/-- C10: for a standard retailer with current Hookah quantity 0, rebalancing
any other gift type leaves the Hookah quantity at 0: the priority branch
gates hardware on the tobacco-shop category, and the proportional branch
gives hookah a share proportional to its prior cost, which is zero. -/
theorem rebalance_retailer_no_hookah (B V : ℚ) (s : GiftDict) (changed : GiftType)
    (hs : s.hookah = 0) (hcg : changed ≠ GiftType.hookah) :
    (recalculate_gifts CustomerType.RETAILER B V s changed).hookah = 0 := by
  simp only [recalculate_gifts]
  split_ifs with h1 h2 h3
  · simp [zeroOthers, hcg]
  · unfold priorityAlloc
    rw [stepCash_hookah, stepAF_hookah, stepPack_hookah]
    have hns : stepHookah CustomerType.RETAILER changed (s, B - cost s V changed) =
        (s, B - cost s V changed) := by
      unfold stepHookah
      rw [if_neg]
      rintro ⟨hne, hct, hge⟩
      exact CustomerType.noConfusion hct
    rw [hns]
    exact hs
  · simp [zeroOthers, hcg]
  · have hzero : cost s V GiftType.hookah = 0 := by
      simp [cost, hs]
    simp only [propAlloc, hzero]
    rw [if_neg hcg]
    norm_num

/-- C10 witness: retailer with hookah slider 0, Pack FOC changed. -/
theorem rebalance_retailer_no_hookah_witness :
    (recalculate_gifts CustomerType.RETAILER 100 50 ⟨5, 0, 3, 0⟩ GiftType.packFOC).hookah = 0 :=
  rebalance_retailer_no_hookah 100 50 ⟨5, 0, 3, 0⟩ GiftType.packFOC rfl (by decide)
